import Mathlib

/-!
Shallow embedding of `Adafruit_IO/mqtt_client.py` (the `MQTTClient` class).

Topics and feed identifiers are modelled as `List Char` (Python strings are
character sequences), payloads as opaque byte lists.  Each Python method
becomes a pure function returning the new client state together with the
transport calls it performed and, for the trampoline callbacks, the error
it raised (as the reason code carried by the `RuntimeError`) and whether
the user callback slot was invoked.
-/

/-- Message payload: opaque bytes, never inspected by the adapter. -/
abbrev Payload := List Nat

/-- Keyword options forwarded verbatim to the transport connect call. -/
abbrev KwArgs := List (String × String)

/-- Constant `SERVICE_HOST` from the source. -/
def SERVICE_HOST : String := "io.adafruit.com"

/-- Constant `SERVICE_PORT` from the source. -/
def SERVICE_PORT : Nat := 1883

/-- Constant `KEEP_ALIVE_SEC` from the source. -/
def KEEP_ALIVE_SEC : Nat := 3600

/-- The literal `api/feeds/` that inbound and outbound topics start with. -/
def apiFeedsHead : List Char := "api/feeds/".toList

/-- The literal `/streams/receive.json` ending the inbound topic template. -/
def recvTail : List Char := "/streams/receive.json".toList

/-- The literal `/streams/send.json` ending the outbound topic template. -/
def sendTail : List Char := "/streams/send.json".toList

/-- Inbound topic `api/feeds/{feed_id}/streams/receive.json` built by
`subscribe` (and assumed by `_mqtt_message`). -/
def recvTopic (feed_id : List Char) : List Char :=
  apiFeedsHead ++ (feed_id ++ recvTail)

/-- Outbound topic `api/feeds/{feed_id}/streams/send.json` built by
`publish`. -/
def sendTopic (feed_id : List Char) : List Char :=
  apiFeedsHead ++ (feed_id ++ sendTail)

/-- An inbound transport message, as handed to `_mqtt_message`: a topic
string and a raw payload. -/
structure Msg where
  topic : List Char
  payload : Payload
deriving DecidableEq

/-- A call the adapter makes on the underlying paho transport object. -/
inductive Effect where
  | transportConnect (host : String) (port : Nat) (keepalive : Nat)
      (kwargs : KwArgs)
  | transportDisconnect
  | transportSubscribe (topic : List Char)
  | transportPublish (topic : List Char) (payload : Payload)
deriving DecidableEq

/-- The mutable state of an `MQTTClient` instance: the three user callback
slots (modelled by whether a handler is registered), the stored access key
and the `_connected` flag. -/
structure MQTTClient where
  on_connect : Bool
  on_disconnect : Bool
  on_message : Bool
  key : String
  connected : Bool
deriving DecidableEq

namespace MQTTClient

/-- Constructor `__init__(key)`: callbacks start as `None`, the key is stored as the
transport username, `_connected` starts `False`.  No transport call is
made. -/
def init (key : String) : MQTTClient :=
  { on_connect := false
    on_disconnect := false
    on_message := false
    key := key
    connected := false }

/-- Outcome of running the `_mqtt_connect` trampoline: the (possibly
partially) mutated state, the reason code carried by the raised
`RuntimeError` (`none` when nothing was raised), and whether the user
`on_connect` callback was invoked. -/
structure ConnectResult where
  state : MQTTClient
  raised : Option Nat
  calledOnConnect : Bool
deriving DecidableEq

/-- Outcome of running the `_mqtt_disconnect` trampoline. -/
structure DisconnectResult where
  state : MQTTClient
  raised : Option Nat
  calledOnDisconnect : Bool
deriving DecidableEq

/-- Trampoline `_mqtt_connect(self, client, userdata, flags, rc)`: on `rc == 0` set
`_connected = True` and then invoke `on_connect` if registered; on any
other `rc` raise a `RuntimeError` carrying `rc` (so the flag is untouched
and `on_connect` is never reached). -/
def mqtt_connect (c : MQTTClient) (rc : Nat) : ConnectResult :=
  if rc = 0 then
    { state := { c with connected := true }
      raised := none
      calledOnConnect := c.on_connect }
  else
    { state := c, raised := some rc, calledOnConnect := false }

/-- Trampoline `_mqtt_disconnect(self, client, userdata, rc)`: always set
`_connected = False` first; then on non-zero `rc` raise a `RuntimeError`
carrying `rc` (so `on_disconnect` is never reached), otherwise invoke
`on_disconnect` if registered. -/
def mqtt_disconnect (c : MQTTClient) (rc : Nat) : DisconnectResult :=
  let c := { c with connected := false }
  if rc ≠ 0 then
    { state := c, raised := some rc, calledOnDisconnect := false }
  else
    { state := c, raised := none, calledOnDisconnect := c.on_disconnect }

/-- Python slice `msg.topic[10:-21]`: drop the first 10 characters and
keep everything up to 21 characters before the end (empty when the topic
is shorter than 31 characters, matching Python clamping). -/
def feedIdSlice (t : List Char) : List Char :=
  (t.drop 10).take (t.length - 31)

/-- Trampoline `_mqtt_message(self, client, userdata, msg)`: when `on_message` is
registered, the topic starts with `api/feeds/` (Python
`startswith('api/feeds/')`, i.e. its first 10 characters are that
literal) and the topic length is at least 31, call
`on_message(self, msg.topic[10:-21], msg.payload)`; otherwise fall
through silently.  The result is the `(feed_id, payload)` argument pair
of that call, or `none` when the message was dropped.  The client state
is never mutated. -/
def mqtt_message (c : MQTTClient) (msg : Msg) : Option (List Char × Payload) :=
  if c.on_message = true ∧ msg.topic.take 10 = apiFeedsHead ∧
      31 ≤ msg.topic.length then
    some (feedIdSlice msg.topic, msg.payload)
  else
    none

/-- Method `connect(self, **kwargs)`: if `_connected` is already true, return
with no transport call; otherwise call the transport connect with the
fixed host, port and keep-alive, forwarding `kwargs`. -/
def connect (c : MQTTClient) (kwargs : KwArgs) : MQTTClient × List Effect :=
  if c.connected = true then
    (c, [])
  else
    (c, [Effect.transportConnect SERVICE_HOST SERVICE_PORT KEEP_ALIVE_SEC kwargs])

/-- Method `is_connected(self)`: pure read of the `_connected` flag. -/
def is_connected (c : MQTTClient) : Bool :=
  c.connected

/-- Method `disconnect(self)`: call the transport disconnect only when
`_connected` is true. -/
def disconnect (c : MQTTClient) : MQTTClient × List Effect :=
  if c.connected = true then
    (c, [Effect.transportDisconnect])
  else
    (c, [])

/-- Method `subscribe(self, feed_id)`: one transport subscribe on the inbound
topic built from `feed_id`. -/
def subscribe (c : MQTTClient) (feed_id : List Char) : MQTTClient × List Effect :=
  (c, [Effect.transportSubscribe (recvTopic feed_id)])

/-- Method `publish(self, feed_id, value)`: one transport publish of `value` on
the outbound topic built from `feed_id`; the transport result is
discarded, the Python method returns `None`. -/
def publish (c : MQTTClient) (feed_id : List Char) (value : Payload) :
    MQTTClient × List Effect :=
  (c, [Effect.transportPublish (sendTopic feed_id) value])

end MQTTClient

/-- One event acting on a client: a public method call, or the transport
firing one of the three trampoline callbacks, or the user (re)assigning a
callback slot. -/
inductive Event where
  | userConnect (kwargs : KwArgs)
  | userDisconnect
  | userSubscribe (feed_id : List Char)
  | userPublish (feed_id : List Char) (value : Payload)
  | cbConnect (rc : Nat)
  | cbDisconnect (rc : Nat)
  | cbMessage (m : Msg)
  | setOnConnect (b : Bool)
  | setOnDisconnect (b : Bool)
  | setOnMessage (b : Bool)
deriving DecidableEq

/-- Evaluates to `true` exactly on the connect-callback event with reason code 0, the
only event whose handler assigns `True` to `_connected`. -/
def isConnAck0 : Event → Bool
  | Event.cbConnect 0 => true
  | _ => false

namespace MQTTClient

/-- State transition of a client under one event (transport calls, raised
errors and callback invocations projected away; `_mqtt_message` mutates
nothing). -/
def step (c : MQTTClient) : Event → MQTTClient
  | Event.userConnect kw => (c.connect kw).1
  | Event.userDisconnect => c.disconnect.1
  | Event.userSubscribe f => (c.subscribe f).1
  | Event.userPublish f v => (c.publish f v).1
  | Event.cbConnect rc => (c.mqtt_connect rc).state
  | Event.cbDisconnect rc => (c.mqtt_disconnect rc).state
  | Event.cbMessage _ => c
  | Event.setOnConnect b => { c with on_connect := b }
  | Event.setOnDisconnect b => { c with on_disconnect := b }
  | Event.setOnMessage b => { c with on_message := b }

/-- Run a client through a list of events in order. -/
def run (c : MQTTClient) (es : List Event) : MQTTClient :=
  es.foldl step c

theorem step_keeps_disconnected (c : MQTTClient) (e : Event)
    (hc : c.connected = false) (he : isConnAck0 e = false) :
    (c.step e).connected = false := by
  cases e with
  | userConnect kw =>
      simp only [step, connect]
      split <;> exact hc
  | userDisconnect =>
      simp only [step, disconnect]
      split <;> exact hc
  | userSubscribe f => simpa [step, subscribe] using hc
  | userPublish f v => simpa [step, publish] using hc
  | cbConnect rc =>
      cases rc with
      | zero => simp [isConnAck0] at he
      | succ n => simp [step, mqtt_connect, hc]
  | cbDisconnect rc =>
      simp only [step, mqtt_disconnect]
      split <;> rfl
  | cbMessage m => simpa [step] using hc
  | setOnConnect b => simpa [step] using hc
  | setOnDisconnect b => simpa [step] using hc
  | setOnMessage b => simpa [step] using hc

theorem run_keeps_disconnected (c : MQTTClient) (es : List Event)
    (hc : c.connected = false)
    (hes : es.all (fun e => !(isConnAck0 e)) = true) :
    (c.run es).connected = false := by
  induction es generalizing c with
  | nil => simpa [run] using hc
  | cons e es ih =>
      simp only [List.all_cons, Bool.and_eq_true, Bool.not_eq_true'] at hes
      exact ih (c.step e) (step_keeps_disconnected c e hc hes.1) hes.2

end MQTTClient

/-- The dispatch condition exactly as the claim words it: a callback is
registered, the topic starts with `api/feeds/` and the topic ends with
`/streams/receive.json`. -/
def claimedDispatchCond (c : MQTTClient) (m : Msg) : Prop :=
  c.on_message = true ∧ m.topic.take 10 = apiFeedsHead ∧
    recvTail.isSuffixOf m.topic = true

theorem apiFeedsHead_length : apiFeedsHead.length = 10 := rfl

theorem recvTail_length : recvTail.length = 21 := rfl

theorem sendTail_length : sendTail.length = 18 := rfl

theorem recvTopic_length (F : List Char) :
    (recvTopic F).length = F.length + 31 := by
  unfold recvTopic
  rw [List.length_append, List.length_append, apiFeedsHead_length,
    recvTail_length]
  omega

theorem recvTopic_take (F : List Char) :
    (recvTopic F).take 10 = apiFeedsHead := by
  unfold recvTopic
  exact List.take_left' apiFeedsHead_length

theorem feedIdSlice_recvTopic (F : List Char) :
    MQTTClient.feedIdSlice (recvTopic F) = F := by
  unfold MQTTClient.feedIdSlice
  rw [recvTopic_length]
  unfold recvTopic
  rw [List.drop_left' apiFeedsHead_length]
  have hn : F.length + 31 - 31 = F.length := by omega
  rw [hn, List.take_left]

/-- C1 counterexample: the claim is false on the code.  With a registered
callback and the topic `api/feeds/AAAAAAAAAAAAAAAAAAAAA` (31 characters,
correct head, but not ending in `/streams/receive.json`), `_mqtt_message`
does dispatch, yet the claimed condition fails, so dispatch is not
equivalent to the claimed condition. -/
theorem C1_counterexample :
    ¬ ∀ (c : MQTTClient) (m : Msg),
        (c.mqtt_message m).isSome = true ↔ claimedDispatchCond c m := by
  intro h
  have hd := (h ⟨false, false, true, "k", false⟩
      ⟨"api/feeds/AAAAAAAAAAAAAAAAAAAAA".toList, []⟩).mp (by decide)
  exact absurd hd.2.2 (by decide)

/-- C1 (amended): the user callback is dispatched if and only if a
callback is registered, the topic starts with `api/feeds/` and the topic
is at least 31 characters long (the code never checks the
`/streams/receive.json` ending); any other message yields no dispatch and
no error. -/
theorem C1_dispatch_by_head_and_length (c : MQTTClient) (m : Msg) :
    ((c.mqtt_message m).isSome = true ↔
      c.on_message = true ∧ m.topic.take 10 = apiFeedsHead ∧
        31 ≤ m.topic.length) ∧
    (¬ (c.on_message = true ∧ m.topic.take 10 = apiFeedsHead ∧
        31 ≤ m.topic.length) → c.mqtt_message m = none) := by
  constructor
  · unfold MQTTClient.mqtt_message
    split <;> simp_all
  · intro hnot
    unfold MQTTClient.mqtt_message
    exact if_neg hnot

/-- C1 witness: the amended dispatch condition instantiated on a client
with a registered callback and a well-formed inbound topic. -/
theorem C1_dispatch_by_head_and_length_witness :
    ((MQTTClient.mqtt_message ⟨false, false, true, "k", false⟩
        { topic := recvTopic "x".toList, payload := [7] }).isSome = true ↔
      ((⟨false, false, true, "k", false⟩ : MQTTClient).on_message = true ∧
        (recvTopic "x".toList).take 10 = apiFeedsHead ∧
        31 ≤ (recvTopic "x".toList).length)) ∧
    (¬ ((⟨false, false, true, "k", false⟩ : MQTTClient).on_message = true ∧
        (recvTopic "x".toList).take 10 = apiFeedsHead ∧
        31 ≤ (recvTopic "x".toList).length) →
      MQTTClient.mqtt_message ⟨false, false, true, "k", false⟩
        { topic := recvTopic "x".toList, payload := [7] } = none) :=
  C1_dispatch_by_head_and_length _ _

/-- C2: for every feed identifier `F` (the empty string included) and
every payload `P`, a message on exactly `api/feeds/F/streams/receive.json`
with a registered callback dispatches with feed id exactly `F` and
payload exactly `P`. -/
theorem C2_exact_feed_and_payload (c : MQTTClient) (F : List Char)
    (P : Payload) (h : c.on_message = true) :
    c.mqtt_message { topic := recvTopic F, payload := P } = some (F, P) := by
  unfold MQTTClient.mqtt_message
  rw [if_pos ?hc]
  case hc =>
    refine ⟨h, recvTopic_take F, ?_⟩
    rw [recvTopic_length]
    omega
  rw [feedIdSlice_recvTopic]

/-- C2 witness: concrete instance with feed id `temperature` and payload
bytes `[49, 50]`. -/
theorem C2_exact_feed_and_payload_witness :
    ((⟨false, false, true, "k", false⟩ : MQTTClient).on_message = true) ∧
    MQTTClient.mqtt_message ⟨false, false, true, "k", false⟩
        { topic := recvTopic "temperature".toList, payload := [49, 50] } =
      some ("temperature".toList, [49, 50]) :=
  ⟨rfl, C2_exact_feed_and_payload _ _ _ rfl⟩

/-- C3: the `_connected` flag is false at construction, stays false along
any event trace containing no reason-code-0 connect callback, is set true
by a reason-code-0 connect callback, and is set false by every disconnect
callback whatever its reason code. -/
theorem C3_connected_flag (k : String) (es : List Event) (c : MQTTClient)
    (rc : Nat) (h : es.all (fun e => !(isConnAck0 e)) = true) :
    (MQTTClient.init k).is_connected = false ∧
    ((MQTTClient.init k).run es).is_connected = false ∧
    (c.mqtt_connect 0).state.is_connected = true ∧
    (c.mqtt_disconnect rc).state.is_connected = false := by
  refine ⟨rfl, ?_, rfl, ?_⟩
  · exact MQTTClient.run_keeps_disconnected _ es rfl h
  · simp only [MQTTClient.mqtt_disconnect, MQTTClient.is_connected]
    split <;> rfl

/-- C3 witness: a concrete trace of a refused connect, a clean disconnect,
a user connect call and an inbound message never turns the flag on. -/
theorem C3_connected_flag_witness :
    ([Event.cbConnect 3, Event.cbDisconnect 0, Event.userConnect [],
        Event.cbMessage { topic := "x".toList, payload := [] }].all
      (fun e => !(isConnAck0 e)) = true) ∧
    ((MQTTClient.init "abc123").is_connected = false ∧
    ((MQTTClient.init "abc123").run
        [Event.cbConnect 3, Event.cbDisconnect 0, Event.userConnect [],
          Event.cbMessage { topic := "x".toList, payload := [] }]).is_connected
      = false ∧
    ((MQTTClient.init "w").mqtt_connect 0).state.is_connected = true ∧
    ((MQTTClient.init "w").mqtt_disconnect 5).state.is_connected = false) :=
  ⟨by decide,
    C3_connected_flag "abc123"
      [Event.cbConnect 3, Event.cbDisconnect 0, Event.userConnect [],
        Event.cbMessage { topic := "x".toList, payload := [] }]
      (MQTTClient.init "w") 5 (by decide)⟩

/-- C4: for every non-zero reason code `rc`, the connect trampoline raises
an error carrying `rc`, leaves the whole state (the flag included)
unchanged, and never invokes the user `on_connect` callback. -/
theorem C4_connect_error (c : MQTTClient) (rc : Nat) (h : rc ≠ 0) :
    (c.mqtt_connect rc).raised = some rc ∧
    (c.mqtt_connect rc).state = c ∧
    (c.is_connected = false →
      (c.mqtt_connect rc).state.is_connected = false) ∧
    (c.mqtt_connect rc).calledOnConnect = false := by
  unfold MQTTClient.mqtt_connect
  rw [if_neg h]
  exact ⟨rfl, rfl, fun hf => hf, rfl⟩

/-- C4 witness: reason code 3 on a freshly constructed client. -/
theorem C4_connect_error_witness :
    (3 ≠ 0) ∧
    (((MQTTClient.init "k").mqtt_connect 3).raised = some 3 ∧
    ((MQTTClient.init "k").mqtt_connect 3).state = MQTTClient.init "k" ∧
    ((MQTTClient.init "k").is_connected = false →
      ((MQTTClient.init "k").mqtt_connect 3).state.is_connected = false) ∧
    ((MQTTClient.init "k").mqtt_connect 3).calledOnConnect = false) :=
  ⟨by decide, C4_connect_error (MQTTClient.init "k") 3 (by decide)⟩

/-- C5: calling `connect` while the flag is true returns with the state
unchanged and no transport call made. -/
theorem C5_connect_noop_when_connected (c : MQTTClient) (kw : KwArgs)
    (h : c.connected = true) :
    c.connect kw = (c, []) := by
  unfold MQTTClient.connect
  exact if_pos h

/-- C5 witness: an already connected client with one kwarg pair. -/
theorem C5_connect_noop_when_connected_witness :
    ((⟨false, false, false, "k", true⟩ : MQTTClient).connected = true) ∧
    MQTTClient.connect ⟨false, false, false, "k", true⟩ [("keepalive", "60")] =
      (⟨false, false, false, "k", true⟩, []) :=
  ⟨rfl, C5_connect_noop_when_connected _ _ rfl⟩

/-- C6: calling `disconnect` while the flag is false returns with the
state unchanged and no transport call made. -/
theorem C6_disconnect_noop_when_disconnected (c : MQTTClient)
    (h : c.connected = false) :
    c.disconnect = (c, []) := by
  unfold MQTTClient.disconnect
  rw [if_neg]
  simp [h]

/-- C6 witness: a freshly constructed (hence disconnected) client. -/
theorem C6_disconnect_noop_when_disconnected_witness :
    ((MQTTClient.init "k").connected = false) ∧
    (MQTTClient.init "k").disconnect = (MQTTClient.init "k", []) :=
  ⟨rfl, C6_disconnect_noop_when_disconnected _ rfl⟩

/-- C7: `publish(F, V)` issues exactly one transport publish on
`api/feeds/` ++ F ++ `/streams/send.json` with payload `V` unmodified,
and hands nothing back (the state is returned unchanged with that single
effect). -/
theorem C7_publish_topic_and_payload (c : MQTTClient) (F : List Char)
    (V : Payload) :
    c.publish F V =
      (c, [Effect.transportPublish (apiFeedsHead ++ (F ++ sendTail)) V]) :=
  rfl

/-- C8: whenever `connect` opens the transport (flag false), it passes
host `io.adafruit.com`, port 1883 and keep-alive 3600, forwarding the
caller kwargs unchanged. -/
theorem C8_connect_params (c : MQTTClient) (kw : KwArgs)
    (h : c.connected = false) :
    c.connect kw =
      (c, [Effect.transportConnect "io.adafruit.com" 1883 3600 kw]) := by
  unfold MQTTClient.connect
  rw [if_neg]
  · rfl
  · simp [h]

/-- C8 witness: a fresh client with one kwarg pair. -/
theorem C8_connect_params_witness :
    ((MQTTClient.init "k").connected = false) ∧
    (MQTTClient.init "k").connect [("bind_address", "0.0.0.0")] =
      (MQTTClient.init "k",
        [Effect.transportConnect "io.adafruit.com" 1883 3600
          [("bind_address", "0.0.0.0")]]) :=
  ⟨rfl, C8_connect_params _ _ rfl⟩

/-- C9: for every non-zero reason code, the disconnect trampoline already
has the flag cleared when its error (carrying that code) propagates, and
the user `on_disconnect` callback is not invoked. -/
theorem C9_unexpected_disconnect (c : MQTTClient) (rc : Nat)
    (h : rc ≠ 0) :
    (c.mqtt_disconnect rc).state.is_connected = false ∧
    (c.mqtt_disconnect rc).raised = some rc ∧
    (c.mqtt_disconnect rc).calledOnDisconnect = false := by
  simp only [MQTTClient.mqtt_disconnect]
  rw [if_pos h]
  exact ⟨rfl, rfl, rfl⟩

/-- C9 witness: reason code 4 on a connected client with a registered
disconnect callback. -/
theorem C9_unexpected_disconnect_witness :
    (4 ≠ 0) ∧
    ((MQTTClient.mqtt_disconnect ⟨false, true, false, "k", true⟩ 4).state.is_connected
        = false ∧
    (MQTTClient.mqtt_disconnect ⟨false, true, false, "k", true⟩ 4).raised = some 4 ∧
    (MQTTClient.mqtt_disconnect ⟨false, true, false, "k", true⟩ 4).calledOnDisconnect
        = false) :=
  ⟨by decide, C9_unexpected_disconnect ⟨false, true, false, "k", true⟩ 4 (by decide)⟩

/-- C10: `subscribe` and `publish` return the client state exactly as it
was, so the flag and the three callback slots are untouched. -/
theorem C10_subscribe_publish_frame (c : MQTTClient) (F : List Char)
    (V : Payload) :
    (c.subscribe F).1 = c ∧ (c.publish F V).1 = c :=
  ⟨rfl, rfl⟩
